import Mathlib

/-!
Verification development for the pycardano example scripts
(`examples/plutus/time_locked_gift/vesting.py`,
`examples/plutus/forty_two/forty_two.py`, `examples/get_script_address.py`).

The scripts are shallowly embedded: pure computations become Lean
functions, OS/network effects (environment lookup, chain queries, the
confirmation oracle, submitted transaction identifiers) become explicit
function or value parameters, and the pycardano `TransactionBuilder` is
embedded as the record of fields the scripts actually set.  Machine
integers are `Nat`/`Int` (Python integers are unbounded, so no modular
wrap is involved).  Byte strings are `List Nat` with each element a byte
value.
-/

namespace PyCardano

/-- Byte strings (datum payloads, key hashes) as lists of byte values. -/
abbrev Bytes := List Nat

/-! ### CBOR primitive layer

Modelled from the spec: the canonical binary (CBOR) encoding used for
`PlutusData` payloads is implemented by the pycardano library
(`PlutusData.to_cbor` / `PlutusData.from_cbor`), whose sources are not in
`src/`; only its caller `VestingDatum` is.  The model below follows the
spec sentence "must round-trip through a canonical binary encoding (the
same encoding used on-chain) without loss": CBOR major types 0/1
(integers), 2 (byte strings), 4 (arrays), 6 (tags), with minimal-length
argument headers and bignum tags 2/3 for integers outside the 64-bit
range. -/

/-- Little-endian base-256 digits of a natural number (empty for zero). -/
def natToBytesLE (n : Nat) : List Nat :=
  if n = 0 then [] else n % 256 :: natToBytesLE (n / 256)
termination_by n
decreasing_by exact Nat.div_lt_self (Nat.pos_of_ne_zero (by assumption)) (by omega)

/-- Reassemble a natural number from little-endian base-256 digits. -/
def natFromBytesLE : List Nat → Nat
  | [] => 0
  | b :: rest => b + 256 * natFromBytesLE rest

/-- Big-endian base-256 digits, as used by CBOR bignums. -/
def natToBytesBE (n : Nat) : List Nat := (natToBytesLE n).reverse

/-- Reassemble a natural number from big-endian base-256 digits. -/
def natFromBytesBE (bs : List Nat) : Nat := natFromBytesLE bs.reverse

/-- CBOR initial-byte-plus-argument header for a major type `major` and
argument value `n`, using the shortest (canonical) form. -/
def encodeHeader (major n : Nat) : List Nat :=
  if n < 24 then [major * 32 + n]
  else if n < 256 then [major * 32 + 24, n]
  else if n < 65536 then [major * 32 + 25, n / 256 % 256, n % 256]
  else if n < 4294967296 then
    [major * 32 + 26, n / 16777216 % 256, n / 65536 % 256, n / 256 % 256, n % 256]
  else
    [major * 32 + 27,
     n / 72057594037927936 % 256, n / 281474976710656 % 256,
     n / 1099511627776 % 256, n / 4294967296 % 256,
     n / 16777216 % 256, n / 65536 % 256, n / 256 % 256, n % 256]

/-- Parse a CBOR header: returns the major type, the argument value and
the remaining bytes. -/
def parseHeader : List Nat → Option (Nat × Nat × List Nat)
  | [] => none
  | b :: rest =>
    let major := b / 32
    let ai := b % 32
    if ai < 24 then some (major, ai, rest)
    else if ai = 24 then
      match rest with
      | x :: r => some (major, x, r)
      | _ => none
    else if ai = 25 then
      match rest with
      | x :: y :: r => some (major, x * 256 + y, r)
      | _ => none
    else if ai = 26 then
      match rest with
      | x :: y :: z :: w :: r =>
        some (major, ((x * 256 + y) * 256 + z) * 256 + w, r)
      | _ => none
    else if ai = 27 then
      match rest with
      | a :: b2 :: c :: d :: e :: f :: g :: h :: r =>
        some (major,
          ((((((a * 256 + b2) * 256 + c) * 256 + d) * 256 + e) * 256 + f)
            * 256 + g) * 256 + h, r)
      | _ => none
    else none

/-- A CBOR byte string: major type 2 header followed by the raw bytes. -/
def encodeBytestring (bs : Bytes) : List Nat :=
  encodeHeader 2 bs.length ++ bs

/-- Parse a CBOR byte string, returning the bytes and the remainder. -/
def parseBytestring (bs : List Nat) : Option (Bytes × List Nat) :=
  match parseHeader bs with
  | none => none
  | some (major, len, rest) =>
    if major = 2 ∧ len ≤ rest.length then some (rest.take len, rest.drop len)
    else none

/-- A CBOR integer: major types 0/1 inside the 64-bit range, bignum tags
2/3 (tag header followed by a big-endian byte string) outside it. -/
def encodeInt (i : Int) : List Nat :=
  if 0 ≤ i then
    let n := i.toNat
    if n < 18446744073709551616 then encodeHeader 0 n
    else encodeHeader 6 2 ++ encodeBytestring (natToBytesBE n)
  else
    let n := (-1 - i).toNat
    if n < 18446744073709551616 then encodeHeader 1 n
    else encodeHeader 6 3 ++ encodeBytestring (natToBytesBE n)

/-- Parse a CBOR integer (major types 0/1 or bignum tags 2/3). -/
def parseInt (bs : List Nat) : Option (Int × List Nat) :=
  match parseHeader bs with
  | none => none
  | some (major, n, rest) =>
    if major = 0 then some (Int.ofNat n, rest)
    else if major = 1 then some (-1 - Int.ofNat n, rest)
    else if major = 6 ∧ n = 2 then
      match parseBytestring rest with
      | some (digits, r) => some (Int.ofNat (natFromBytesBE digits), r)
      | none => none
    else if major = 6 ∧ n = 3 then
      match parseBytestring rest with
      | some (digits, r) => some (-1 - Int.ofNat (natFromBytesBE digits), r)
      | none => none
    else none

/-! ### The vesting datum (`vesting.py`, lines 41-51) -/

/-- Structure `VestingDatum` from `vesting.py`: a `PlutusData` record with
`CONSTR_ID = 0` and two fields, the beneficiary public-key hash and the
POSIX deadline in milliseconds. -/
structure VestingDatum where
  beneficiary : Bytes
  deadline : Int
deriving DecidableEq, Repr

/-- Modelled from the spec: pycardano serializes a `PlutusData` value with
constructor index 0 as CBOR tag `121 + CONSTR_ID = 121` wrapping the array
of its fields; the serializer itself is not in `src/`. -/
def VestingDatum.to_cbor (d : VestingDatum) : List Nat :=
  encodeHeader 6 121 ++ encodeHeader 4 2 ++
    encodeBytestring d.beneficiary ++ encodeInt d.deadline

/-- Modelled from the spec: `VestingDatum.from_cbor` (pycardano, not in
`src/`) parses the tag-121 constructor, the two-element field array, the
byte-string beneficiary and the integer deadline, rejecting any other
shape. -/
def VestingDatum.from_cbor (bs : List Nat) : Option VestingDatum :=
  match parseHeader bs with
  | none => none
  | some (major, tag, r1) =>
    if major = 6 ∧ tag = 121 then
      match parseHeader r1 with
      | none => none
      | some (major2, len, r2) =>
        if major2 = 4 ∧ len = 2 then
          match parseBytestring r2 with
          | none => none
          | some (ben, r3) =>
            match parseInt r3 with
            | none => none
            | some (dl, r4) => if r4 = [] then some ⟨ben, dl⟩ else none
        else none
    else none

/-! ### Round-trip lemmas for the CBOR layer -/

theorem natFromBytesLE_natToBytesLE (n : Nat) :
    natFromBytesLE (natToBytesLE n) = n := by
  induction n using Nat.strong_induction_on with
  | _ n ih =>
    rw [natToBytesLE]
    by_cases h : n = 0
    · simp [h, natFromBytesLE]
    · rw [if_neg h]
      rw [natFromBytesLE, ih (n / 256) (Nat.div_lt_self (Nat.pos_of_ne_zero h) (by omega))]
      omega

theorem natFromBytesBE_natToBytesBE (n : Nat) :
    natFromBytesBE (natToBytesBE n) = n := by
  unfold natFromBytesBE natToBytesBE
  rw [List.reverse_reverse]
  exact natFromBytesLE_natToBytesLE n

theorem parseHeader_encodeHeader (major n : Nat) (hm : major < 8)
    (hn : n < 18446744073709551616) (rest : List Nat) :
    parseHeader (encodeHeader major n ++ rest) = some (major, n, rest) := by
  unfold encodeHeader parseHeader
  by_cases h1 : n < 24
  · simp only [if_pos h1, List.cons_append, List.nil_append]
    have hd : (major * 32 + n) / 32 = major := by omega
    have hm32 : (major * 32 + n) % 32 = n := by omega
    simp only [hd, hm32, if_pos h1]
  · rw [if_neg h1]
    by_cases h2 : n < 256
    · simp only [if_pos h2, List.cons_append, List.nil_append]
      have hd : (major * 32 + 24) / 32 = major := by omega
      have hm32 : (major * 32 + 24) % 32 = 24 := by omega
      simp [hd, hm32]
    · rw [if_neg h2]
      by_cases h3 : n < 65536
      · simp only [if_pos h3, List.cons_append, List.nil_append]
        have hd : (major * 32 + 25) / 32 = major := by omega
        have hm32 : (major * 32 + 25) % 32 = 25 := by omega
        simp only [hd, hm32]
        norm_num
        omega
      · rw [if_neg h3]
        by_cases h4 : n < 4294967296
        · simp only [if_pos h4, List.cons_append, List.nil_append]
          have hd : (major * 32 + 26) / 32 = major := by omega
          have hm32 : (major * 32 + 26) % 32 = 26 := by omega
          simp only [hd, hm32]
          norm_num
          omega
        · rw [if_neg h4]
          simp only [List.cons_append, List.nil_append]
          have hd : (major * 32 + 27) / 32 = major := by omega
          have hm32 : (major * 32 + 27) % 32 = 27 := by omega
          simp only [hd, hm32]
          norm_num
          omega

theorem parseBytestring_encodeBytestring (bs : Bytes)
    (hbs : bs.length < 18446744073709551616) (rest : List Nat) :
    parseBytestring (encodeBytestring bs ++ rest) = some (bs, rest) := by
  unfold parseBytestring encodeBytestring
  rw [List.append_assoc, parseHeader_encodeHeader 2 bs.length (by omega) hbs]
  have hle : bs.length ≤ (bs ++ rest).length := by
    simp [List.length_append]
  simp [hle, List.take_append, List.drop_append]

theorem parseInt_encodeInt (i : Int) (hi : i.natAbs < 18446744073709551616)
    (rest : List Nat) :
    parseInt (encodeInt i ++ rest) = some (i, rest) := by
  unfold encodeInt
  by_cases hpos : 0 ≤ i
  · have hsmall : i.toNat < 18446744073709551616 := by omega
    simp only [if_pos hpos, if_pos hsmall]
    unfold parseInt
    rw [parseHeader_encodeHeader 0 i.toNat (by omega) hsmall]
    have heq : Int.ofNat i.toNat = i := by
      rw [Int.ofNat_eq_coe, Int.toNat_of_nonneg hpos]
    dsimp only
    rw [if_pos rfl, heq]
  · have hneg : (0 : Int) ≤ -1 - i := by omega
    have hsmall : (-1 - i).toNat < 18446744073709551616 := by omega
    simp only [if_neg hpos, if_pos hsmall]
    unfold parseInt
    rw [parseHeader_encodeHeader 1 (-1 - i).toNat (by omega) hsmall]
    have heq : -1 - Int.ofNat (-1 - i).toNat = i := by
      rw [Int.ofNat_eq_coe, Int.toNat_of_nonneg hneg]; omega
    dsimp only
    rw [if_neg (by omega), if_pos rfl, heq]

/-- Shared round-trip lemma: decoding the canonical encoding of a vesting
datum whose beneficiary hash has fewer than `2^64` bytes and whose
deadline has magnitude below `2^64` (every real key hash and POSIX
timestamp) recovers the datum exactly. -/
theorem from_cbor_to_cbor (d : VestingDatum)
    (hben : d.beneficiary.length < 18446744073709551616)
    (hdl : d.deadline.natAbs < 18446744073709551616) :
    VestingDatum.from_cbor (VestingDatum.to_cbor d) = some d := by
  unfold VestingDatum.to_cbor VestingDatum.from_cbor
  rw [List.append_assoc, List.append_assoc,
    parseHeader_encodeHeader 6 121 (by omega) (by omega)]
  norm_num
  rw [parseHeader_encodeHeader 4 2 (by omega) (by omega)]
  norm_num
  rw [parseBytestring_encodeBytestring d.beneficiary hben]
  norm_num
  rw [← List.append_nil (encodeInt d.deadline),
    parseInt_encodeInt d.deadline hdl]
  simp

/-! ### Ledger data and the builder state

The pycardano `TransactionBuilder` is embedded as the record of the
fields the example scripts set on it.  Addresses are opaque
identifiers; a `UTxO` carries an identifying reference and its output. -/

/-- Opaque address identifier (`my_address`, `script_address`, ...). -/
abbrev Addr := Nat

/-- The value of an output; the scripts only ever read `.coin`. -/
structure Amount where
  coin : Int
deriving DecidableEq, Repr

/-- A transaction output as the scripts use it: an address, an amount
and an optional attached datum payload (its raw CBOR bytes, as read back
through `utxo.output.datum.cbor`). -/
structure TxOut where
  address : Addr
  amount : Amount
  datum : Option (List Nat)
deriving DecidableEq, Repr

/-- An unspent output: an identifying reference plus the output. -/
structure UTxO where
  ref : Nat
  output : TxOut
deriving DecidableEq, Repr

/-- The builder state the example scripts construct before
`build_and_sign`: exactly the fields they assign. -/
structure TxIntent where
  inputAddresses : List Addr
  scriptInputs : List UTxO
  outputs : List TxOut
  validityStart : Option Nat
  requiredSigners : List Bytes
  collaterals : List UTxO
deriving DecidableEq, Repr

/-! ### Environment-variable configuration

`get_env_val` is defined identically in `vesting.py` (lines 21-25) and
`forty_two.py` (lines 49-53).  The process environment is embedded as a
function from variable names to an optional string value. -/

/-- Function `get_env_val` from the scripts: `os.environ.get(key)` followed by
`if not val: raise ...`.  In Python `not val` is true both for `None`
(unset) and for the empty string, so both are rejected. -/
def get_env_val (env : String → Option String) (key : String) :
    Except String String :=
  match env key with
  | none => Except.error ("Environment variable " ++ key ++ " is not set!")
  | some v =>
    if v = "" then Except.error ("Environment variable " ++ key ++ " is not set!")
    else Except.ok v

/-- The two required configuration values both scripts read at module
load, before any transaction work. -/
structure Config where
  paymentKeyPath : String
  blockfrostId : String
deriving DecidableEq, Repr

/-- The startup sequence of both scripts (`vesting.py` lines 29-36,
`forty_two.py` lines 56-62): read `PAYMENT_KEY_PATH`, then read
`BLOCKFROST_ID`; a raised exception aborts the whole script. -/
def startup (env : String → Option String) : Except String Config := do
  let keyPath ← get_env_val env "PAYMENT_KEY_PATH"
  let projectId ← get_env_val env "BLOCKFROST_ID"
  pure ⟨keyPath, projectId⟩

namespace Vesting

/-! ### The vesting script (`vesting.py`) -/

/-- Result of one run of the vesting `wait_for_tx` helper. -/
inductive WaitResult
  | confirmed
  | timedOut
deriving DecidableEq, Repr

/-- Observable trace of a `wait_for_tx` run: outcome, number of
confirmation-endpoint polls issued, and total seconds slept. -/
structure WaitTrace where
  result : WaitResult
  polls : Nat
  sleptSeconds : Nat
deriving DecidableEq, Repr

/-- The loop body of `wait_for_tx` (`vesting.py` lines 71-80): the
oracle `confirmedAt i` tells whether the i-th poll of
`chain_context.api.transaction` succeeds; a failed poll sleeps 5
seconds; `remaining` counts the iterations of `range(20)` still to
run. -/
def wait_for_tx_loop (confirmedAt : Nat → Bool) :
    Nat → Nat → Nat → Nat → WaitTrace
  | 0, _, polls, slept => ⟨WaitResult.timedOut, polls, slept⟩
  | remaining + 1, i, polls, slept =>
    if confirmedAt i then ⟨WaitResult.confirmed, polls + 1, slept⟩
    else wait_for_tx_loop confirmedAt remaining (i + 1) (polls + 1) (slept + 5)

/-- Function `wait_for_tx` from `vesting.py`: `for i in range(20)`, try the
confirmation endpoint, sleep 5 seconds on failure, and report a timeout
message after the loop. -/
def wait_for_tx (confirmedAt : Nat → Bool) : WaitTrace :=
  wait_for_tx_loop confirmedAt 20 0 0 0

/-- The scan loop of `claim_funds` (`vesting.py` lines 126-148): walk
the outputs at the script address in gateway order, skip outputs with no
datum, skip outputs whose datum fails to decode as a `VestingDatum`, and
return the first output whose decoded beneficiary equals the caller's
verification-key hash. -/
def findScriptUtxo (myHash : Bytes) : List UTxO → Option UTxO
  | [] => none
  | u :: rest =>
    match u.output.datum with
    | none => findScriptUtxo myHash rest
    | some d =>
      match VestingDatum.from_cbor d with
      | none => findScriptUtxo myHash rest
      | some dat =>
        if dat.beneficiary = myHash then some u
        else findScriptUtxo myHash rest

/-- The matcher the scan applies to one output: it has a datum, the
datum decodes as a `VestingDatum`, and the beneficiary is the caller. -/
def isMine (myHash : Bytes) (u : UTxO) : Bool :=
  match u.output.datum with
  | none => false
  | some d =>
    match VestingDatum.from_cbor d with
    | none => false
    | some dat => dat.beneficiary == myHash

/-- Outcome of one `lock_funds` run: the intent handed to
`build_and_sign`/`submit_tx`, and the Python function's return value. -/
structure LockOutcome where
  intent : TxIntent
  returnValue : Int
deriving DecidableEq, Repr

/-- Function `lock_funds` from `vesting.py` (lines 91-117).  `currentTimeMs` is
the wall-clock reading `int(time.time() * 1000)` taken at the start;
`submittedTxId` is the identifier of the transaction the gateway
accepted (printed inside `submit_tx` but, as the definition shows, not
part of the return value, which is only `deadline_ms`). -/
def lock_funds (amountLovelace : Int) (lockDurationSeconds : Int)
    (currentTimeMs : Int) (myHash : Bytes) (myAddr scriptAddr : Addr)
    (submittedTxId : Nat) : LockOutcome :=
  let deadline_ms := currentTimeMs + lockDurationSeconds * 1000
  let datum : VestingDatum := ⟨myHash, deadline_ms⟩
  { intent :=
      { inputAddresses := [myAddr]
        scriptInputs := []
        outputs := [⟨scriptAddr, ⟨amountLovelace⟩, some datum.to_cbor⟩]
        validityStart := none
        requiredSigners := []
        collaterals := [] }
    returnValue := deadline_ms }

/-- Result of one `claim_funds` run.  The source can end in three ways:
the scan finds nothing (prints and returns), the collateral lookup
`chain_context.utxos(my_address)[0]` hits an empty list (raises), or a
transaction is built and submitted.  The `conditionNotYetMet`
constructor is the outcome the specification predicts for an early
claim; it is part of the result type so that statements about it can be
made, and as the theorems show the source never produces it. -/
inductive ClaimResult
  | noSuitableUtxo
  | missingCollateral
  | conditionNotYetMet
  | submitted (intent : TxIntent)
deriving DecidableEq, Repr

/-- Function `claim_funds` from `vesting.py` (lines 122-187).  `deadlineMs` is
the Python parameter `deadline_ms` (unused by the body, exactly as in
the source); `nowMs` is the caller-observed current ledger time at the
moment of the call — the body never reads a clock, so it is unused too;
`currentSlot` is `chain_context.last_block_slot`; `scriptUtxos` is the
gateway's answer to `utxos(script_address)` and `walletUtxos` to
`utxos(my_address)`. -/
def claim_funds (deadlineMs : Int) (nowMs : Int) (currentSlot : Nat)
    (myHash : Bytes) (myAddr : Addr)
    (scriptUtxos walletUtxos : List UTxO) : ClaimResult :=
  match findScriptUtxo myHash scriptUtxos with
  | none => ClaimResult.noSuitableUtxo
  | some scriptUtxo =>
    match walletUtxos with
    | [] => ClaimResult.missingCollateral
    | w :: _ =>
      ClaimResult.submitted
        { inputAddresses := []
          scriptInputs := [scriptUtxo]
          outputs := [⟨myAddr, ⟨scriptUtxo.output.amount.coin⟩, none⟩]
          validityStart := some currentSlot
          requiredSigners := [myHash]
          collaterals := [w] }

/-- The whole-script run for the lock phase: module-level configuration
loading happens before `lock_funds` can run, so a missing variable
aborts before any transaction work. -/
def run_lock_script (env : String → Option String) (amountLovelace : Int)
    (lockDurationSeconds : Int) (currentTimeMs : Int) (myHash : Bytes)
    (myAddr scriptAddr : Addr) (submittedTxId : Nat) :
    Except String LockOutcome := do
  let _cfg ← startup env
  pure (lock_funds amountLovelace lockDurationSeconds currentTimeMs
    myHash myAddr scriptAddr submittedTxId)

end Vesting

namespace FortyTwo

/-- Function `wait_for_tx` from `forty_two.py` (lines 65-68), decorated with
`@retry(delay=20)`.  The `retry` library's default `tries=-1` retries
without an attempt ceiling, sleeping 20 seconds between attempts, so
the loop only ever stops on a successful poll.  `fuel` is an observation
horizon: `none` means that after `fuel` polls the loop is still running
and nothing has been surfaced to the caller. -/
def wait_for_tx_loop (confirmedAt : Nat → Bool) : Nat → Nat → Option Nat
  | 0, _ => none
  | fuel + 1, i =>
    if confirmedAt i then some i else wait_for_tx_loop confirmedAt fuel (i + 1)

end FortyTwo

/-! ## Helper lemmas shared by the claim theorems -/

/-- The claim-scan loop agrees with `List.find?` applied to the
matcher `isMine`. -/
theorem findScriptUtxo_eq_list_find (myHash : Bytes) (utxos : List UTxO) :
    Vesting.findScriptUtxo myHash utxos =
      utxos.find? (Vesting.isMine myHash) := by
  induction utxos with
  | nil => rfl
  | cons u rest ih =>
    rw [List.find?_cons]
    unfold Vesting.findScriptUtxo Vesting.isMine
    cases hd : u.output.datum with
    | none =>
      dsimp only
      exact ih
    | some d =>
      dsimp only
      cases hc : VestingDatum.from_cbor d with
      | none =>
        dsimp only
        exact ih
      | some dat =>
        dsimp only
        by_cases hb : dat.beneficiary = myHash
        · simp [hb]
        · have hbeq : (dat.beneficiary == myHash) = false := by
            simp [hb]
          rw [if_neg hb, hbeq]
          dsimp only
          exact ih

/-- A scan hit satisfies the matcher: if `findScriptUtxo` returns an
output, that output's datum decodes to a `VestingDatum` whose
beneficiary is the caller's hash. -/
theorem findScriptUtxo_matches (h : Bytes) (l : List UTxO) (u : UTxO)
    (hu : Vesting.findScriptUtxo h l = some u)
    (d : List Nat) (dat : VestingDatum) (hd : u.output.datum = some d)
    (hdec : VestingDatum.from_cbor d = some dat) : dat.beneficiary = h := by
  rw [findScriptUtxo_eq_list_find] at hu
  have hmine : Vesting.isMine h u = true := List.find?_some hu
  unfold Vesting.isMine at hmine
  rw [hd] at hmine
  dsimp only at hmine
  rw [hdec] at hmine
  dsimp only at hmine
  exact eq_of_beq hmine

/-- The polls counter of the vesting wait loop grows by at most the
remaining iteration budget. -/
theorem vesting_loop_polls_le (c : Nat → Bool) :
    ∀ (r i p s : Nat), (Vesting.wait_for_tx_loop c r i p s).polls ≤ p + r := by
  intro r
  induction r with
  | zero => intro i p s; simp [Vesting.wait_for_tx_loop]
  | succ n ih =>
    intro i p s
    rw [Vesting.wait_for_tx_loop]
    by_cases hc : c i
    · rw [if_pos hc]
      dsimp only
      omega
    · rw [if_neg hc]
      have := ih (i + 1) (p + 1) (s + 5)
      omega

/-- When the confirmation oracle fails throughout the remaining budget,
the vesting wait loop runs the budget down, polling once and sleeping
five seconds per iteration, then reports a timeout. -/
theorem vesting_loop_all_fail (c : Nat → Bool) :
    ∀ (r i p s : Nat), (∀ j, j < r → c (i + j) = false) →
      Vesting.wait_for_tx_loop c r i p s =
        ⟨Vesting.WaitResult.timedOut, p + r, s + 5 * r⟩ := by
  intro r
  induction r with
  | zero => intro i p s _; simp [Vesting.wait_for_tx_loop]
  | succ n ih =>
    intro i p s hall
    have h0 : c i = false := by
      have := hall 0 (by omega)
      simpa using this
    rw [Vesting.wait_for_tx_loop, h0]
    simp only [Bool.false_eq_true, if_false]
    rw [ih (i + 1) (p + 1) (s + 5) (fun j hj => by
      have := hall (j + 1) (by omega)
      rw [show i + (j + 1) = i + 1 + j by omega] at this
      exact this)]
    have hp : p + 1 + n = p + (n + 1) := by omega
    have hs : s + 5 + 5 * n = s + 5 * (n + 1) := by omega
    rw [hp, hs]

/-- With an oracle that never confirms, the forty-two wait loop is still
running after any number of polls: no timeout is ever surfaced. -/
theorem fortytwo_loop_all_fail :
    ∀ (fuel i : Nat), FortyTwo.wait_for_tx_loop (fun _ => false) fuel i = none := by
  intro fuel
  induction fuel with
  | zero => intro i; rfl
  | succ n ih => intro i; simp [FortyTwo.wait_for_tx_loop, ih]

/-! ## Claim theorems -/

/-- C3: for every `VestingDatum` (any beneficiary hash of realistic
length and any deadline of realistic magnitude), decoding the canonical
CBOR encoding yields the original value: `decode(encode(d)) = d`, so the
payload attached at lock time is recovered without loss by the
release-time scan. -/
theorem vesting_datum_roundtrip (d : VestingDatum)
    (hben : d.beneficiary.length < 18446744073709551616)
    (hdl : d.deadline.natAbs < 18446744073709551616) :
    VestingDatum.from_cbor (VestingDatum.to_cbor d) = some d :=
  from_cbor_to_cbor d hben hdl

/-- Witness for C3 at a concrete datum: a three-byte beneficiary hash
and a millisecond POSIX deadline. -/
theorem vesting_datum_roundtrip_witness :
    ([1, 2, 3] : Bytes).length < 18446744073709551616 ∧
    (1735000000000 : Int).natAbs < 18446744073709551616 ∧
    VestingDatum.from_cbor
        (VestingDatum.to_cbor ⟨[1, 2, 3], 1735000000000⟩) =
      some ⟨[1, 2, 3], 1735000000000⟩ :=
  ⟨by decide, by decide,
    vesting_datum_roundtrip ⟨[1, 2, 3], 1735000000000⟩ (by decide) (by decide)⟩

/-- C4: the `claim_funds` scan over the outputs at the script address
equals `List.find?` with the "datum decodes and its beneficiary is the
caller" matcher: outputs without a datum or with an undecodable datum
are skipped without error, the first matching output in gateway order is
returned, and `none` (not an error) results when nothing matches. -/
theorem findScriptUtxo_first_match (myHash : Bytes) (utxos : List UTxO) :
    Vesting.findScriptUtxo myHash utxos =
      utxos.find? (Vesting.isMine myHash) :=
  findScriptUtxo_eq_list_find myHash utxos

/-- C9: absence of either required configuration variable
(`PAYMENT_KEY_PATH` or `BLOCKFROST_ID`) makes the script run abort with
an error during the module-level startup sequence, before any
transaction intent is produced. -/
theorem missing_config_aborts (env : String → Option String)
    (amount dur now : Int) (h : Bytes) (a s : Addr) (txId : Nat)
    (hmiss : env "PAYMENT_KEY_PATH" = none ∨ env "BLOCKFROST_ID" = none) :
    ∃ msg, Vesting.run_lock_script env amount dur now h a s txId =
      Except.error msg := by
  unfold Vesting.run_lock_script startup
  cases hmiss with
  | inl hk =>
    refine ⟨"Environment variable PAYMENT_KEY_PATH is not set!", ?_⟩
    simp [get_env_val, hk, Bind.bind, Except.bind]
  | inr hb =>
    cases hk : env "PAYMENT_KEY_PATH" with
    | none =>
      refine ⟨"Environment variable PAYMENT_KEY_PATH is not set!", ?_⟩
      simp [get_env_val, hk, Bind.bind, Except.bind]
    | some v =>
      by_cases hv : v = ""
      · refine ⟨"Environment variable PAYMENT_KEY_PATH is not set!", ?_⟩
        simp [get_env_val, hk, hv, Bind.bind, Except.bind]
      · refine ⟨"Environment variable BLOCKFROST_ID is not set!", ?_⟩
        simp [get_env_val, hk, hv, hb, Bind.bind, Except.bind]

/-- Witness for C9: with an entirely empty environment the lock-phase
run of the vesting script aborts with an error. -/
theorem missing_config_aborts_witness :
    ∃ msg, Vesting.run_lock_script (fun _ => none) 10000000 60 0 [1] 2 3 4 =
      Except.error msg :=
  missing_config_aborts (fun _ => none) 10000000 60 0 [1] 2 3 4 (Or.inl rfl)

/-- C10: `get_env_val` fails exactly when the variable is unset or set
to the empty string, and otherwise returns the value unchanged. -/
theorem get_env_val_spec (env : String → Option String) (key : String) :
    ((∃ e, get_env_val env key = Except.error e) ↔
      (env key = none ∨ env key = some "")) ∧
    (∀ v, env key = some v → v ≠ "" → get_env_val env key = Except.ok v) := by
  constructor
  · constructor
    · intro ⟨e, he⟩
      unfold get_env_val at he
      cases hk : env key with
      | none => exact Or.inl rfl
      | some v =>
        rw [hk] at he
        dsimp only at he
        by_cases hv : v = ""
        · exact Or.inr (by rw [hv])
        · rw [if_neg hv] at he
          cases he
    · intro hk
      refine ⟨"Environment variable " ++ key ++ " is not set!", ?_⟩
      unfold get_env_val
      cases hk with
      | inl hk => rw [hk]
      | inr hk =>
        rw [hk]
        dsimp only
        rw [if_pos rfl]
  · intro v hv hne
    unfold get_env_val
    rw [hv]
    dsimp only
    rw [if_neg hne]

/-- Witness for C10 at a concrete environment: a set, non-empty variable
is returned unchanged. -/
theorem get_env_val_spec_witness :
    get_env_val
        (fun k => if k = "PAYMENT_KEY_PATH" then some "payment.skey" else none)
        "PAYMENT_KEY_PATH" = Except.ok "payment.skey" :=
  (get_env_val_spec _ "PAYMENT_KEY_PATH").2 "payment.skey" (by simp) (by decide)

/-- C1 counterexample: an early claim (observed time 0, deadline
1000000, so observed time does not exceed the deadline) with a matching
locked output and an available collateral output does not fail with
`ConditionNotYetMet`; it reaches submission of a built transaction,
refuting the claimed fail-fast deadline check. -/
theorem claim_funds_early_claim_submits :
    (0 : Int) ≤ 1000000 ∧
    Vesting.claim_funds 1000000 0 55 [1, 2, 3] 3
        [⟨0, ⟨7, ⟨10000000⟩, some (VestingDatum.to_cbor ⟨[1, 2, 3], 1000000⟩)⟩⟩]
        [⟨1, ⟨3, ⟨5000000⟩, none⟩⟩] =
      Vesting.ClaimResult.submitted
        ⟨[], [⟨0, ⟨7, ⟨10000000⟩, some (VestingDatum.to_cbor ⟨[1, 2, 3], 1000000⟩)⟩⟩],
         [⟨3, ⟨10000000⟩, none⟩], some 55, [[1, 2, 3]],
         [⟨1, ⟨3, ⟨5000000⟩, none⟩⟩]⟩ :=
  ⟨by decide, by decide⟩

/-- C1 (amended): `claim_funds` performs no off-chain deadline check at
all — its result is independent of the caller-observed current ledger
time and is never `ConditionNotYetMet`; deadline enforcement is left to
the on-chain script via the validity-start constraint. -/
theorem claim_funds_ignores_observed_time (dl now nowOther : Int)
    (slot : Nat) (myHash : Bytes) (addr : Addr) (su wu : List UTxO) :
    Vesting.claim_funds dl now slot myHash addr su wu =
      Vesting.claim_funds dl nowOther slot myHash addr su wu ∧
    Vesting.claim_funds dl now slot myHash addr su wu ≠
      Vesting.ClaimResult.conditionNotYetMet := by
  refine ⟨rfl, ?_⟩
  unfold Vesting.claim_funds
  cases hf : Vesting.findScriptUtxo myHash su with
  | none => simp
  | some u =>
    cases wu with
    | nil => simp
    | cons w ws => simp

/-- Witness for C1's amended theorem at concrete inputs. -/
theorem claim_funds_ignores_observed_time_witness :
    Vesting.claim_funds 9 1 2 [5] 6 [] [] =
      Vesting.claim_funds 9 100 2 [5] 6 [] [] ∧
    Vesting.claim_funds 9 1 2 [5] 6 [] [] ≠
      Vesting.ClaimResult.conditionNotYetMet :=
  claim_funds_ignores_observed_time 9 1 100 2 [5] 6 [] []

/-- C2 counterexample: the `forty_two.py` confirmation wait, whose
`retry` decorator has no attempt ceiling, has surfaced nothing — neither
a confirmation nor a `ConfirmationTimeout` — after 1000 polls of an
oracle that never confirms, far beyond the only poll ceiling appearing
in the sources (20); it simply keeps polling. -/
theorem fortytwo_wait_no_ceiling :
    FortyTwo.wait_for_tx_loop (fun _ => false) 1000 0 = none ∧ 20 < 1000 :=
  ⟨fortytwo_loop_all_fail 1000 0, by decide⟩

/-- C2 (amended): the vesting `wait_for_tx` is a bounded poll loop —
at most 20 polls, 5 seconds of sleep after each failed poll, and a
timeout surfaced once all 20 polls fail — while the forty-two
`wait_for_tx` retries with no attempt ceiling: with an oracle that never
confirms it is still polling after any number of attempts, never
surfacing a timeout. -/
theorem wait_for_tx_poll_policies (confirmedAt : Nat → Bool) (fuel i : Nat) :
    (Vesting.wait_for_tx confirmedAt).polls ≤ 20 ∧
    ((∀ j, j < 20 → confirmedAt j = false) →
      Vesting.wait_for_tx confirmedAt =
        ⟨Vesting.WaitResult.timedOut, 20, 100⟩) ∧
    FortyTwo.wait_for_tx_loop (fun _ => false) fuel i = none := by
  refine ⟨?_, ?_, fortytwo_loop_all_fail fuel i⟩
  · have := vesting_loop_polls_le confirmedAt 20 0 0 0
    simpa [Vesting.wait_for_tx] using this
  · intro hall
    have := vesting_loop_all_fail confirmedAt 20 0 0 0
      (fun j hj => by simpa using hall j hj)
    simpa [Vesting.wait_for_tx] using this

/-- Witness for C2's amended theorem with a never-confirming oracle. -/
theorem wait_for_tx_poll_policies_witness :
    (Vesting.wait_for_tx (fun _ => false)).polls ≤ 20 ∧
    Vesting.wait_for_tx (fun _ => false) =
      ⟨Vesting.WaitResult.timedOut, 20, 100⟩ ∧
    FortyTwo.wait_for_tx_loop (fun _ => false) 5 0 = none :=
  ⟨(wait_for_tx_poll_policies (fun _ => false) 5 0).1,
   (wait_for_tx_poll_policies (fun _ => false) 5 0).2.1 (fun j hj => rfl),
   (wait_for_tx_poll_policies (fun _ => false) 5 0).2.2⟩

/-- C5 counterexample: two lock runs identical except for the submitted
transaction identifier (5 versus 99) produce exactly the same outcome,
including the same returned receipt, so the receipt cannot contain the
submitted transaction identifier; `lock_funds` returns only the
computed deadline. -/
theorem lock_receipt_lacks_tx_id :
    Vesting.lock_funds 10000000 60 1700000000000 [1, 2, 3] 3 7 5 =
      Vesting.lock_funds 10000000 60 1700000000000 [1, 2, 3] 3 7 99 ∧
    (5 : Nat) ≠ 99 :=
  ⟨rfl, by decide⟩

/-- C5 (amended): the lock operation's return value is exactly the
computed deadline — the time observed at the start of the operation plus
the requested duration converted to milliseconds — the same deadline is
stored in the datum attached to the script output, and the outcome is
independent of the submitted transaction identifier, which is not part
of the receipt. -/
theorem lock_funds_receipt_deadline (amount dur now : Int) (myHash : Bytes)
    (myAddr scriptAddr : Addr) (txId txIdOther : Nat) :
    (Vesting.lock_funds amount dur now myHash myAddr scriptAddr txId).returnValue =
      now + dur * 1000 ∧
    (Vesting.lock_funds amount dur now myHash myAddr scriptAddr txId).intent.outputs =
      [⟨scriptAddr, ⟨amount⟩,
        some (VestingDatum.to_cbor ⟨myHash, now + dur * 1000⟩)⟩] ∧
    Vesting.lock_funds amount dur now myHash myAddr scriptAddr txId =
      Vesting.lock_funds amount dur now myHash myAddr scriptAddr txIdOther :=
  ⟨rfl, rfl, rfl⟩

/-- C6: when the scan finds a matching locked output and a collateral
output exists, the submitted intent consumes that output as the sole
script input and forwards its full locked value to the destination
address, with no partial withdrawal. -/
theorem claim_funds_sole_input_full_value (dl now : Int) (slot : Nat)
    (myHash : Bytes) (addr : Addr) (su wu : List UTxO) (u w : UTxO)
    (ws : List UTxO) (hfind : Vesting.findScriptUtxo myHash su = some u)
    (hw : wu = w :: ws) :
    ∃ intent, Vesting.claim_funds dl now slot myHash addr su wu =
        Vesting.ClaimResult.submitted intent ∧
      intent.scriptInputs = [u] ∧
      intent.outputs = [⟨addr, ⟨u.output.amount.coin⟩, none⟩] := by
  unfold Vesting.claim_funds
  rw [hfind, hw]
  exact ⟨_, rfl, rfl, rfl⟩

/-- Witness for C6 at concrete inputs. -/
theorem claim_funds_sole_input_full_value_witness :
    ∃ intent, Vesting.claim_funds 2000000 1 10 [9] 4
        [⟨5, ⟨8, ⟨777⟩, some (VestingDatum.to_cbor ⟨[9], 2000000⟩)⟩⟩]
        [⟨6, ⟨4, ⟨123⟩, none⟩⟩] =
        Vesting.ClaimResult.submitted intent ∧
      intent.scriptInputs =
        [⟨5, ⟨8, ⟨777⟩, some (VestingDatum.to_cbor ⟨[9], 2000000⟩)⟩⟩] ∧
      intent.outputs = [⟨4, ⟨777⟩, none⟩] :=
  claim_funds_sole_input_full_value 2000000 1 10 [9] 4 _ _
    ⟨5, ⟨8, ⟨777⟩, some (VestingDatum.to_cbor ⟨[9], 2000000⟩)⟩⟩
    ⟨6, ⟨4, ⟨123⟩, none⟩⟩ [] (by decide) rfl

/-- C7: when a time-locked release proceeds (matching output found,
collateral available), the built intent sets the validity lower bound to
the current observed slot and the required-signer set to exactly the
beneficiary hash decoded from the locked output's condition. -/
theorem claim_funds_validity_and_signers (dl now : Int) (slot : Nat)
    (myHash : Bytes) (addr : Addr) (su wu : List UTxO) (u w : UTxO)
    (ws : List UTxO) (d : List Nat) (dat : VestingDatum)
    (hfind : Vesting.findScriptUtxo myHash su = some u)
    (hw : wu = w :: ws) (hd : u.output.datum = some d)
    (hdec : VestingDatum.from_cbor d = some dat) :
    ∃ intent, Vesting.claim_funds dl now slot myHash addr su wu =
        Vesting.ClaimResult.submitted intent ∧
      intent.validityStart = some slot ∧
      intent.requiredSigners = [dat.beneficiary] := by
  have hb : dat.beneficiary = myHash :=
    findScriptUtxo_matches myHash su u hfind d dat hd hdec
  unfold Vesting.claim_funds
  rw [hfind, hw]
  exact ⟨_, rfl, rfl, by rw [hb]⟩

/-- Witness for C7 at concrete inputs. -/
theorem claim_funds_validity_and_signers_witness :
    ∃ intent, Vesting.claim_funds 3000000 2 42 [8, 7] 11
        [⟨0, ⟨9, ⟨555⟩, some (VestingDatum.to_cbor ⟨[8, 7], 3000000⟩)⟩⟩]
        [⟨1, ⟨11, ⟨222⟩, none⟩⟩] =
        Vesting.ClaimResult.submitted intent ∧
      intent.validityStart = some 42 ∧
      intent.requiredSigners = [([8, 7] : Bytes)] :=
  claim_funds_validity_and_signers 3000000 2 42 [8, 7] 11 _ _
    ⟨0, ⟨9, ⟨555⟩, some (VestingDatum.to_cbor ⟨[8, 7], 3000000⟩)⟩⟩
    ⟨1, ⟨11, ⟨222⟩, none⟩⟩ []
    (VestingDatum.to_cbor ⟨[8, 7], 3000000⟩) ⟨[8, 7], 3000000⟩
    (by decide) rfl rfl (by decide)

/-- C8: once the scan has found the locked output, the release reserves
as collateral the first output the gateway reports for the releasing
identity's own (unlocked) address — an output from the wallet list, not
the locked script output — and fails with the missing-collateral error
when the releasing identity has no unspent output to pledge. -/
theorem claim_funds_collateral (dl now : Int) (slot : Nat) (myHash : Bytes)
    (addr : Addr) (su : List UTxO) (u : UTxO)
    (hfind : Vesting.findScriptUtxo myHash su = some u) :
    Vesting.claim_funds dl now slot myHash addr su [] =
      Vesting.ClaimResult.missingCollateral ∧
    (∀ w ws, ∃ intent,
      Vesting.claim_funds dl now slot myHash addr su (w :: ws) =
        Vesting.ClaimResult.submitted intent ∧
      intent.collaterals = [w] ∧ w ∈ w :: ws ∧
      (u ∉ w :: ws → w ≠ u)) := by
  constructor
  · unfold Vesting.claim_funds
    rw [hfind]
  · intro w ws
    refine ⟨⟨[], [u], [⟨addr, ⟨u.output.amount.coin⟩, none⟩], some slot,
        [myHash], [w]⟩, ?_, rfl, List.mem_cons_self w ws, ?_⟩
    · unfold Vesting.claim_funds
      rw [hfind]
    · intro hnotin heq
      exact hnotin (heq ▸ List.mem_cons_self w ws)

/-- Witness for C8 at concrete inputs: both the empty-wallet failure and
the collateral choice from a one-element wallet. -/
theorem claim_funds_collateral_witness :
    Vesting.claim_funds 4000000 3 17 [2] 12
        [⟨0, ⟨9, ⟨900⟩, some (VestingDatum.to_cbor ⟨[2], 4000000⟩)⟩⟩] [] =
      Vesting.ClaimResult.missingCollateral ∧
    (∃ intent,
      Vesting.claim_funds 4000000 3 17 [2] 12
          [⟨0, ⟨9, ⟨900⟩, some (VestingDatum.to_cbor ⟨[2], 4000000⟩)⟩⟩]
          [⟨3, ⟨12, ⟨333⟩, none⟩⟩] =
        Vesting.ClaimResult.submitted intent ∧
      intent.collaterals = [⟨3, ⟨12, ⟨333⟩, none⟩⟩] ∧
      (⟨3, ⟨12, ⟨333⟩, none⟩⟩ : UTxO) ∈ [(⟨3, ⟨12, ⟨333⟩, none⟩⟩ : UTxO)] ∧
      ((⟨0, ⟨9, ⟨900⟩, some (VestingDatum.to_cbor ⟨[2], 4000000⟩)⟩⟩ : UTxO) ∉
          [(⟨3, ⟨12, ⟨333⟩, none⟩⟩ : UTxO)] →
        (⟨3, ⟨12, ⟨333⟩, none⟩⟩ : UTxO) ≠
          ⟨0, ⟨9, ⟨900⟩, some (VestingDatum.to_cbor ⟨[2], 4000000⟩)⟩⟩)) :=
  ⟨(claim_funds_collateral 4000000 3 17 [2] 12
      [⟨0, ⟨9, ⟨900⟩, some (VestingDatum.to_cbor ⟨[2], 4000000⟩)⟩⟩]
      ⟨0, ⟨9, ⟨900⟩, some (VestingDatum.to_cbor ⟨[2], 4000000⟩)⟩⟩
      (by decide)).1,
   (claim_funds_collateral 4000000 3 17 [2] 12
      [⟨0, ⟨9, ⟨900⟩, some (VestingDatum.to_cbor ⟨[2], 4000000⟩)⟩⟩]
      ⟨0, ⟨9, ⟨900⟩, some (VestingDatum.to_cbor ⟨[2], 4000000⟩)⟩⟩
      (by decide)).2
     ⟨3, ⟨12, ⟨333⟩, none⟩⟩ []⟩

end PyCardano
